import Mathlib

/-!
# The report sequencer of `Joystick.c`

A shallow embedding of `Report_init`, `Report_reset` and `Report_getNext`
(Joystick.c, lines 208-406) together with the data they work on.

* The header `Joystick.h` is not part of the sources at hand.  The constants the
  code takes from it (`STICK_MIN`, `STICK_CENTER`, `STICK_MAX`, `HAT_CENTER`,
  `SWITCH_A`, `SWITCH_B`, `SWITCH_L`, `SWITCH_R`) are a parameter, `Header`.
* What the C text leaves to the compiler (the width of `int`, the size of a
  pointer and of a `command`) is a parameter, `Target`.
* A script is a `List command`; the read `commands[i]` is bounds-checked and the
  call has no result (`none`) when the read is outside the script.
-/

namespace Joystick

/-! ## Data model -/

/-- Buttons_t (lines 23-37): the symbolic action of a script entry. -/
inductive Buttons_t where
  | UP
  | DOWN
  | LEFT
  | RIGHT
  | X
  | Y
  | A
  | B
  | L
  | R
  | THROW
  | NOTHING
  | TRIGGERS
  deriving DecidableEq

/-- The struct `command` (lines 39-42).  `duration` is a `uint16_t`: a value in
`0 .. 65535`; the initialiser `-1` of a script file is stored as `65535`. -/
structure command where
  button : Buttons_t
  duration : Nat
  deriving DecidableEq

/-- State_t (lines 45-52): the phase of the sequencer. -/
inductive State_t where
  | SYNC_CONTROLLER
  | SYNC_POSITION
  | BREATHE
  | PROCESS
  | CLEANUP
  | DONE
  deriving DecidableEq

/-- The report sent to the host.  The type is declared in `Joystick.h`; these are
the six fields that `Joystick.c` names.  Any further field of the C struct is
zeroed by the `memset` of every call and is never written afterwards. -/
structure USB_JoystickReport_Input_t where
  Button : Nat
  HAT : Nat
  LX : Nat
  LY : Nat
  RX : Nat
  RY : Nat
  deriving DecidableEq

/-- The struct `Report` (lines 53-64), field by field. -/
structure Report where
  state : State_t
  last_report : USB_JoystickReport_Input_t
  echoes : Int
  report_count : Int
  xpos : Int
  ypos : Int
  bufindex : Int
  duration_count : Int
  portsval : Int
  deriving DecidableEq

/-- The macro `ECHOES` (line 54). -/
def ECHOES : Int := 2

/-- The constants that `Joystick.c` takes from `Joystick.h`. -/
structure Header where
  STICK_MIN : Nat
  STICK_CENTER : Nat
  STICK_MAX : Nat
  HAT_CENTER : Nat
  SWITCH_A : Nat
  SWITCH_B : Nat
  SWITCH_L : Nat
  SWITCH_R : Nat
  deriving DecidableEq

/-- What the compiler decides: the width of `int` in bits, `sizeof` of a pointer
to `command` and `sizeof(command)`. -/
structure Target where
  int_bits : Nat
  sizeof_pointer : Nat
  sizeof_command : Nat
  deriving DecidableEq

/-- The 8-bit AVR the firmware is written for (`MCUSR`, `wdt_disable`, `PORTD`):
`int` has 16 bits, a data pointer 2 bytes, and `command` is one byte of enum
(LUFA builds with short enums) and two bytes of `uint16_t`. -/
def avr8 : Target := ⟨16, 2, 3⟩

/-- A host with 32-bit `int` and 8-byte pointers; `command` is padded to 8 bytes. -/
def lp64 : Target := ⟨32, 8, 8⟩

/-- A concrete header: the stick range `0 .. 255` with centre `128`, the hat's
centre `8` and one bit per button, as in the Pokken pad header of the project. -/
def pokken : Header := ⟨0, 128, 255, 8, 4, 2, 16, 32⟩

/-! ## C arithmetic -/

/-- An `int` result brought back into the range of `int` (two's complement). -/
def int_wrap (t : Target) (x : Int) : Int := Int.bmod x (2 ^ t.int_bits)

/-- The C test `d == -1` for a `uint16_t` value `d` (line 308).  With a 16-bit
`int` both sides are converted to `unsigned int` and `-1` becomes `65535`; with
a wider `int`, `d` is promoted to `int` and never equals `-1`. -/
def eq_minus_one (t : Target) (d : Nat) : Bool :=
  if t.int_bits ≤ 16 then decide (d = 65535) else false

/-- The C test `x > d` for an `int` value `x` and a `uint16_t` value `d`
(line 366).  With a 16-bit `int` the comparison is made in `unsigned int`. -/
def gt_uint16 (t : Target) (x : Int) (d : Nat) : Bool :=
  if t.int_bits ≤ 16 then decide ((d : Int) < x % 65536) else decide ((d : Int) < x)

/-- The value of `(int)(sizeof(commands) / sizeof(commands[0])) - 1` (line 372).
`commands` is a parameter declared `const command commands[]`, that is a
pointer, so `sizeof(commands)` is the size of a pointer. -/
def overrun_limit (t : Target) : Int :=
  int_wrap t (int_wrap t ((t.sizeof_pointer / t.sizeof_command : Nat) : Int) - 1)

/-- The read `commands[i]`: defined inside the script only. -/
def index (commands : List command) (i : Int) : Option command :=
  if i < 0 then none else commands.get? i.toNat

/-! ## The operations -/

/-- The result of one call: the returned flag, the `Report` after the call and
the content of the caller's buffer after the call. -/
structure Outcome where
  retval : Bool
  self : Report
  ReportData : USB_JoystickReport_Input_t
  deriving DecidableEq

/-- Report_init (lines 208-216).  It writes neither `echoes` nor `last_report`. -/
def Report_init (self : Report) : Report :=
  { self with
    state := State_t.SYNC_CONTROLLER
    report_count := 0
    xpos := 0
    ypos := 0
    bufindex := 0
    duration_count := 0
    portsval := 0 }

/-- The object `static Report report` (line 69) before `main` runs: all zero. -/
def static_report : Report :=
  ⟨State_t.SYNC_CONTROLLER, ⟨0, 0, 0, 0, 0, 0⟩, 0, 0, 0, 0, 0, 0, 0⟩

/-- Report_reset (lines 218-234).  `Button` is not written. -/
def Report_reset (h : Header) (self : Report) (ReportData : USB_JoystickReport_Input_t) :
    Report × USB_JoystickReport_Input_t :=
  ({ self with bufindex := 0, duration_count := 0, state := State_t.BREATHE },
   { ReportData with
     LX := h.STICK_CENTER
     LY := h.STICK_CENTER
     RX := h.STICK_CENTER
     RY := h.STICK_CENTER
     HAT := h.HAT_CENTER })

/-- The "empty report" of lines 239-244: `memset` to zero, then the four axes
and the hat at their centre.  The previous content of the buffer is lost. -/
def empty_report (h : Header) (_ReportData : USB_JoystickReport_Input_t) :
    USB_JoystickReport_Input_t :=
  { Button := 0
    HAT := h.HAT_CENTER
    LX := h.STICK_CENTER
    LY := h.STICK_CENTER
    RX := h.STICK_CENTER
    RY := h.STICK_CENTER }

/-- The inner `switch` of lines 315-362 on the button of the current entry.
There is no `case` for `X`, `Y`, `L` and `NOTHING`: they take `default`. -/
def switch_button (h : Header) (b : Buttons_t) (ReportData : USB_JoystickReport_Input_t) :
    USB_JoystickReport_Input_t :=
  match b with
  | Buttons_t.UP => { ReportData with LY := h.STICK_MIN }
  | Buttons_t.LEFT => { ReportData with LX := h.STICK_MIN }
  | Buttons_t.DOWN => { ReportData with LY := h.STICK_MAX }
  | Buttons_t.RIGHT => { ReportData with LX := h.STICK_MAX }
  | Buttons_t.A => { ReportData with Button := ReportData.Button ||| h.SWITCH_A }
  | Buttons_t.B => { ReportData with Button := ReportData.Button ||| h.SWITCH_B }
  | Buttons_t.R => { ReportData with Button := ReportData.Button ||| h.SWITCH_R }
  | Buttons_t.THROW =>
      { ReportData with
        LY := h.STICK_MIN
        Button := ReportData.Button ||| h.SWITCH_R }
  | Buttons_t.TRIGGERS =>
      { ReportData with Button := ReportData.Button ||| (h.SWITCH_L ||| h.SWITCH_R) }
  | _ =>
      { ReportData with
        LX := h.STICK_CENTER
        LY := h.STICK_CENTER
        RX := h.STICK_CENTER
        RY := h.STICK_CENTER
        HAT := h.HAT_CENTER }

/-- Lines 401-404: the report is copied into `last_report`, `echoes` is set to
`ECHOES` and `retval` is returned. -/
def prepare_echo (retval : Bool) (self : Report) (ReportData : USB_JoystickReport_Input_t) :
    Outcome :=
  ⟨retval, { self with last_report := ReportData, echoes := ECHOES }, ReportData⟩

/-- The `case PROCESS` of lines 307-380 once `commands[self->bufindex]` is read
as `c`; the result is the flag, the `Report` and the buffer at the `break`. -/
def process_case (h : Header) (t : Target) (self : Report)
    (ReportData : USB_JoystickReport_Input_t) (c : command) :
    Bool × Report × USB_JoystickReport_Input_t :=
  if eq_minus_one t c.duration then
    let r := Report_reset h self ReportData
    (true, r.1, r.2)
  else
    let ReportData := switch_button h c.button ReportData
    let self := { self with duration_count := int_wrap t (self.duration_count + 1) }
    let self :=
      if gt_uint16 t self.duration_count c.duration then
        { self with bufindex := int_wrap t (self.bufindex + 1), duration_count := 0 }
      else self
    if self.bufindex > overrun_limit t then
      let r := Report_reset h self ReportData
      (true, r.1, r.2)
    else
      (false, self, ReportData)

/-- Report_getNext (lines 236-406).  The arguments are the `Report`, the content
of the caller's buffer before the call and the script; the result is `none` when
the call reads `commands[self->bufindex]` outside the script. -/
def Report_getNext (h : Header) (t : Target) (self : Report)
    (ReportData : USB_JoystickReport_Input_t) (commands : List command) : Option Outcome :=
  let retval := false
  let ReportData := empty_report h ReportData
  if self.echoes > 0 then
    some ⟨retval, { self with echoes := self.echoes - 1 }, self.last_report⟩
  else
    match self.state with
    | State_t.SYNC_CONTROLLER =>
        some (prepare_echo retval { self with state := State_t.BREATHE } ReportData)
    | State_t.SYNC_POSITION =>
        let self := { self with bufindex := 0 }
        let ReportData :=
          { ReportData with
            Button := 0
            LX := h.STICK_CENTER
            LY := h.STICK_CENTER
            RX := h.STICK_CENTER
            RY := h.STICK_CENTER
            HAT := h.HAT_CENTER }
        some (prepare_echo retval { self with state := State_t.BREATHE } ReportData)
    | State_t.BREATHE =>
        some (prepare_echo retval { self with state := State_t.PROCESS } ReportData)
    | State_t.PROCESS =>
        match index commands self.bufindex with
        | none => none
        | some c =>
            let r := process_case h t self ReportData c
            some (prepare_echo r.1 r.2.1 r.2.2)
    | State_t.CLEANUP =>
        some (prepare_echo retval { self with state := State_t.DONE } ReportData)
    | State_t.DONE => some ⟨retval, self, ReportData⟩

/-- Successive calls of `Report_getNext` with one script: one call for each
buffer of the list, each call starting from the `Report` the previous one left.
The result lists the outcome of every call, in order. -/
def calls (h : Header) (t : Target) (commands : List command) :
    List USB_JoystickReport_Input_t → Report → Option (List Outcome)
  | [], _ => some []
  | ReportData :: rest, self =>
      match Report_getNext h t self ReportData commands with
      | none => none
      | some o =>
          match calls h t commands rest o.self with
          | none => none
          | some os => some (o :: os)

/-- The fully neutral snapshot: axes and hat centred, no button. -/
def neutral (h : Header) : USB_JoystickReport_Input_t :=
  { Button := 0
    HAT := h.HAT_CENTER
    LX := h.STICK_CENTER
    LY := h.STICK_CENTER
    RX := h.STICK_CENTER
    RY := h.STICK_CENTER }

/-- The state in which the claims start: `Report_init` applied to the zeroed
static object. -/
def initial : Report := Report_init static_report

/-- A buffer content used where a concrete one is needed. -/
def junk : USB_JoystickReport_Input_t := ⟨65535, 255, 1, 2, 3, 4⟩

/-- The sentinel entry of a script file: duration `-1`, stored as `65535`. -/
def sentinel : command := ⟨Buttons_t.NOTHING, 65535⟩

/-- A `Report` in phase `p` with cursor `i` and hold counter `n`, no echo pending,
the neutral snapshot as last report and everything else zero.  `at_phase PROCESS 0 0`
is the state that six calls from the initial state leave. -/
def at_phase (p : State_t) (i n : Int) : Report :=
  ⟨p, ⟨0, 8, 128, 128, 128, 128⟩, 0, 0, 0, 0, i, n, 0⟩

/-- The script of the concrete scenario: `TRIGGERS` held for 5, then the end. -/
def triggers_script : List command := [⟨Buttons_t.TRIGGERS, 5⟩, sentinel]

/-- The array `setup` (lines 71-80): seven entries, none of them a sentinel. -/
def setup : List command :=
  [⟨Buttons_t.NOTHING, 250⟩, ⟨Buttons_t.TRIGGERS, 5⟩, ⟨Buttons_t.NOTHING, 150⟩,
   ⟨Buttons_t.TRIGGERS, 5⟩, ⟨Buttons_t.NOTHING, 150⟩, ⟨Buttons_t.A, 5⟩,
   ⟨Buttons_t.NOTHING, 250⟩]

/-- A script of two commands and the sentinel: `A` held for 5, `B` held for 3. -/
def two_step_script : List command := [⟨Buttons_t.A, 5⟩, ⟨Buttons_t.B, 3⟩, sentinel]

/-- What a run shows of one call: the flag, the phase, cursor and hold counter
left behind, and the `Button` of the returned snapshot. -/
def observe (o : Outcome) : Bool × State_t × Int × Int × Nat :=
  (o.retval, o.self.state, o.self.bufindex, o.self.duration_count, o.ReportData.Button)

/-- Successive calls of `Report_getNext`, each with a buffer and a script of its
own; the result lists the outcome of every call, in order. -/
def calls_with (h : Header) (t : Target) :
    List (USB_JoystickReport_Input_t × List command) → Report → Option (List Outcome)
  | [], _ => some []
  | (ReportData, commands) :: rest, self =>
      match Report_getNext h t self ReportData commands with
      | none => none
      | some o =>
          match calls_with h t rest o.self with
          | none => none
          | some os => some (o :: os)

/-- The two objects that `HID_Task` keeps between its runs: the global `report`
(line 69) and its own `static bool isSetupDone` (line 186). -/
structure Device where
  report : Report
  isSetupDone : Bool
  deriving DecidableEq

/-- HID_Task (lines 156-204) as far as the sequencer is concerned.  `configured`
is the test `USB_DeviceState == DEVICE_STATE_Configured`, `in_ready` the value of
`Endpoint_IsINReady()` and `JoystickInputData` the content of the local buffer
before the call; the handling of the OUT endpoint touches none of the two objects.
The result is the pair of objects afterwards and the report written to the host,
if one is written. -/
def HID_Task (h : Header) (t : Target) (setup step : List command)
    (configured in_ready : Bool) (JoystickInputData : USB_JoystickReport_Input_t)
    (d : Device) : Option (Device × Option USB_JoystickReport_Input_t) :=
  if configured = false then some (d, none)
  else if in_ready then
    if d.isSetupDone then
      match Report_getNext h t d.report JoystickInputData step with
      | none => none
      | some o => some (⟨o.self, d.isSetupDone⟩, some o.ReportData)
    else
      match Report_getNext h t d.report JoystickInputData setup with
      | none => none
      | some o => some (⟨o.self, true⟩, some o.ReportData)
  else some (d, none)

/-- The loop of `main` (lines 94-100): one run of `HID_Task` for each element of
the list, which gives the two tests and the buffer content of that run.  The
result lists what each run wrote to the host and gives the objects at the end. -/
def main_loop (h : Header) (t : Target) (setup step : List command) :
    List (Bool × Bool × USB_JoystickReport_Input_t) → Device →
      Option (List (Option USB_JoystickReport_Input_t) × Device)
  | [], d => some ([], d)
  | (configured, in_ready, JoystickInputData) :: rest, d =>
      match HID_Task h t setup step configured in_ready JoystickInputData d with
      | none => none
      | some (d1, w) =>
          match main_loop h t setup step rest d1 with
          | none => none
          | some (ws, d2) => some (w :: ws, d2)

/-- A `Report` in the middle of an echo: phase `PROCESS`, cursor 1, hold counter 3,
one `A` snapshot stored and two echoes of it pending. -/
def mid_echo : Report := ⟨State_t.PROCESS, ⟨4, 8, 128, 128, 128, 128⟩, 2, 0, 0, 0, 1, 3, 0⟩

/-- A `Report` in phase `DONE` with no echo pending and an `A` snapshot stored. -/
def idle_report : Report := ⟨State_t.DONE, ⟨4, 8, 128, 128, 128, 128⟩, 0, 0, 0, 0, 0, 0, 0⟩

/-- What a call shows of itself apart from the fields of `Report` that
`Report_getNext` never reads or writes (`report_count`, `xpos`, `ypos`,
`portsval`): flag, snapshot, and phase, cursor, hold counter, echo budget and
stored snapshot afterwards. -/
def visible (o : Outcome) :
    Bool × USB_JoystickReport_Input_t × State_t × Int × Int × Int × USB_JoystickReport_Input_t :=
  (o.retval, o.ReportData, o.self.state, o.self.bufindex, o.self.duration_count,
    o.self.echoes, o.self.last_report)

/-! ## Shared lemmas -/

theorem getNext_echo (h : Header) (t : Target) (self : Report)
    (ReportData : USB_JoystickReport_Input_t) (commands : List command)
    (hecho : 0 < self.echoes) :
    Report_getNext h t self ReportData commands
      = some ⟨false, { self with echoes := self.echoes - 1 }, self.last_report⟩ := by
  simp [Report_getNext, hecho]

theorem getNext_fresh_cache (h : Header) (t : Target) (self : Report)
    (ReportData : USB_JoystickReport_Input_t) (commands : List command) (o : Outcome)
    (hfresh : self.echoes = 0) (hstate : self.state ≠ State_t.DONE)
    (hcall : Report_getNext h t self ReportData commands = some o) :
    o.self.echoes = 2 ∧ o.self.last_report = o.ReportData := by
  unfold Report_getNext at hcall
  simp only [hfresh, lt_self_iff_false, if_false] at hcall
  cases hs : self.state <;> simp only [hs] at hcall hstate
  case PROCESS =>
    cases hi : index commands self.bufindex <;> simp only [hi] at hcall
    · exact absurd hcall (by simp)
    · cases hcall
      simp [prepare_echo, ECHOES]
  case DONE => exact absurd rfl hstate
  all_goals
    cases hcall
    simp [prepare_echo, ECHOES]

theorem process_case_true (h : Header) (t : Target) (self : Report)
    (ReportData : USB_JoystickReport_Input_t) (c : command)
    (hdone : (process_case h t self ReportData c).1 = true) :
    (process_case h t self ReportData c).2.1.bufindex = 0
      ∧ (process_case h t self ReportData c).2.1.duration_count = 0
      ∧ (process_case h t self ReportData c).2.1.state = State_t.BREATHE := by
  unfold process_case at hdone ⊢
  by_cases h1 : eq_minus_one t c.duration = true
  · simp [h1, Report_reset]
  · by_cases h2 : gt_uint16 t (int_wrap t (self.duration_count + 1)) c.duration = true
    · by_cases h3 : int_wrap t (self.bufindex + 1) > overrun_limit t
      · simp [h1, h2, h3, Report_reset]
      · simp [h1, h2, h3] at hdone
    · by_cases h3 : self.bufindex > overrun_limit t
      · simp [h1, h2, h3, Report_reset]
      · simp [h1, h2, h3] at hdone

theorem getNext_true (h : Header) (t : Target) (self : Report)
    (ReportData : USB_JoystickReport_Input_t) (commands : List command) (o : Outcome)
    (hcall : Report_getNext h t self ReportData commands = some o)
    (hdone : o.retval = true) :
    o.self.bufindex = 0 ∧ o.self.duration_count = 0 ∧ o.self.state = State_t.BREATHE
      ∧ o.self.echoes = 2 ∧ o.self.last_report = o.ReportData := by
  unfold Report_getNext at hcall
  by_cases hecho : self.echoes > 0
  · simp only [hecho, if_true] at hcall
    cases hcall
    simp at hdone
  · simp only [hecho, if_false] at hcall
    cases hs : self.state <;> simp only [hs] at hcall <;>
      first
      | (cases hcall; simp [prepare_echo] at hdone)
      | skip
    cases hi : index commands self.bufindex <;> simp only [hi] at hcall
    · exact absurd hcall (by simp)
    · rename_i c
      cases hcall
      simp only [prepare_echo] at hdone ⊢
      have := process_case_true h t self (empty_report h ReportData) c hdone
      simp [this, ECHOES]

theorem echo_twice (h : Header) (t : Target) (s : Report) (hs : s.echoes = 2)
    (rd1 rd2 : USB_JoystickReport_Input_t) (c1 c2 : List command) :
    Report_getNext h t s rd1 c1 = some ⟨false, { s with echoes := 1 }, s.last_report⟩
      ∧ Report_getNext h t { s with echoes := 1 } rd2 c2
          = some ⟨false, { s with echoes := 0 }, s.last_report⟩ := by
  constructor
  · rw [getNext_echo h t s rd1 c1 (by omega), hs]
    rfl
  · rw [getNext_echo h t _ rd2 c2 (by simp)]
    simp

theorem getNext_breathe (h : Header) (t : Target) (s : Report)
    (ReportData : USB_JoystickReport_Input_t) (commands : List command)
    (he : s.echoes = 0) (hs : s.state = State_t.BREATHE) :
    Report_getNext h t s ReportData commands
      = some ⟨false,
          { s with state := State_t.PROCESS, last_report := neutral h, echoes := 2 },
          neutral h⟩ := by
  simp [Report_getNext, he, hs, prepare_echo, empty_report, neutral, ECHOES]

theorem getNext_sync (h : Header) (t : Target) (s : Report)
    (ReportData : USB_JoystickReport_Input_t) (commands : List command)
    (he : s.echoes = 0) (hs : s.state = State_t.SYNC_CONTROLLER) :
    Report_getNext h t s ReportData commands
      = some ⟨false,
          { s with state := State_t.BREATHE, last_report := neutral h, echoes := 2 },
          neutral h⟩ := by
  simp [Report_getNext, he, hs, prepare_echo, empty_report, neutral, ECHOES]

theorem getNext_process (h : Header) (t : Target) (s : Report)
    (ReportData : USB_JoystickReport_Input_t) (commands : List command) (c : command)
    (he : s.echoes = 0) (hs : s.state = State_t.PROCESS)
    (hi : index commands s.bufindex = some c) :
    Report_getNext h t s ReportData commands
      = some (prepare_echo (process_case h t s (neutral h) c).1
          (process_case h t s (neutral h) c).2.1 (process_case h t s (neutral h) c).2.2) := by
  simp [Report_getNext, he, hs, hi, empty_report, neutral]

theorem process_case_sentinel (h : Header) (t : Target) (s : Report) (c : command)
    (hc : eq_minus_one t c.duration = true) :
    process_case h t s (neutral h) c
      = (true, { s with bufindex := 0, duration_count := 0, state := State_t.BREATHE },
          neutral h) := by
  simp [process_case, hc, Report_reset, neutral]

theorem process_case_report (h : Header) (t : Target) (s : Report)
    (rd : USB_JoystickReport_Input_t) (c : command)
    (hc : eq_minus_one t c.duration = false) :
    (process_case h t s rd c).2.2 = switch_button h c.button rd
      ∨ (process_case h t s rd c).2.2 = (Report_reset h s (switch_button h c.button rd)).2 := by
  unfold process_case
  by_cases h2 : gt_uint16 t (int_wrap t (s.duration_count + 1)) c.duration = true
  · by_cases h3 : int_wrap t (s.bufindex + 1) > overrun_limit t
    · right
      simp [hc, h2, h3, Report_reset]
    · left
      simp [hc, h2, h3]
  · by_cases h3 : s.bufindex > overrun_limit t
    · right
      simp [hc, h2, h3, Report_reset]
    · left
      simp [hc, h2, h3]

theorem process_case_button (h : Header) (t : Target) (s : Report) (c : command)
    (hc : eq_minus_one t c.duration = false) :
    (process_case h t s (neutral h) c).2.2.Button
      = (switch_button h c.button (neutral h)).Button := by
  rcases process_case_report h t s (neutral h) c hc with e | e <;> rw [e]
  simp [Report_reset]

theorem process_case_centred (h : Header) (t : Target) (s : Report) (c : command)
    (hc : eq_minus_one t c.duration = false)
    (hb : switch_button h c.button (neutral h)
      = { neutral h with Button := (switch_button h c.button (neutral h)).Button }) :
    (process_case h t s (neutral h) c).2.2
      = { neutral h with Button := (switch_button h c.button (neutral h)).Button } := by
  rcases process_case_report h t s (neutral h) c hc with e | e <;> rw [e]
  · exact hb
  · simp only [Report_reset]
    rw [hb]
    simp [neutral]

theorem process_case_state (h : Header) (t : Target) (s : Report)
    (rd : USB_JoystickReport_Input_t) (c : command) :
    (process_case h t s rd c).2.1.state = s.state
      ∨ (process_case h t s rd c).2.1.state = State_t.BREATHE := by
  unfold process_case
  by_cases h1 : eq_minus_one t c.duration = true
  · right
    simp [h1, Report_reset]
  · by_cases h2 : gt_uint16 t (int_wrap t (s.duration_count + 1)) c.duration = true
    · by_cases h3 : int_wrap t (s.bufindex + 1) > overrun_limit t
      · right
        simp [h1, h2, h3, Report_reset]
      · left
        simp [h1, h2, h3]
    · by_cases h3 : s.bufindex > overrun_limit t
      · right
        simp [h1, h2, h3, Report_reset]
      · left
        simp [h1, h2, h3]

theorem getNext_live (h : Header) (t : Target) (s : Report)
    (rd : USB_JoystickReport_Input_t) (commands : List command) (o : Outcome)
    (hl : s.state = State_t.BREATHE ∨ s.state = State_t.PROCESS)
    (hcall : Report_getNext h t s rd commands = some o) :
    o.self.state = State_t.BREATHE ∨ o.self.state = State_t.PROCESS := by
  by_cases hecho : 0 < s.echoes
  · rw [getNext_echo h t s rd commands hecho] at hcall
    cases hcall
    exact hl
  · unfold Report_getNext at hcall
    simp only [gt_iff_lt, hecho, if_false] at hcall
    rcases hl with hs | hs <;> simp only [hs] at hcall
    · cases hcall
      right
      rfl
    · cases hi : index commands s.bufindex <;> simp only [hi] at hcall
      · exact absurd hcall (by simp)
      · rename_i c
        cases hcall
        simp only [prepare_echo]
        rcases process_case_state h t s (empty_report h rd) c with e | e
        · right
          rw [e, hs]
        · left
          exact e

theorem getNext_echoes_range (h : Header) (t : Target) (s : Report)
    (rd : USB_JoystickReport_Input_t) (commands : List command) (o : Outcome)
    (hcall : Report_getNext h t s rd commands = some o) :
    (0 ≤ s.echoes → 0 ≤ o.self.echoes)
      ∧ (0 ≤ s.echoes ∧ s.echoes ≤ 2 → 0 ≤ o.self.echoes ∧ o.self.echoes ≤ 2) := by
  by_cases hecho : 0 < s.echoes
  · rw [getNext_echo h t s rd commands hecho] at hcall
    cases hcall
    constructor
    · intro _
      show 0 ≤ s.echoes - 1
      omega
    · intro hr
      show 0 ≤ s.echoes - 1 ∧ s.echoes - 1 ≤ 2
      omega
  · by_cases hd : s.state = State_t.DONE
    · have : o.self = s := by
        unfold Report_getNext at hcall
        simp only [gt_iff_lt, hecho, if_false, hd] at hcall
        cases hcall
        rfl
      rw [this]
      exact ⟨fun x => x, fun x => x⟩
    · have key : o.self.echoes = 2 := by
        unfold Report_getNext at hcall
        simp only [gt_iff_lt, hecho, if_false] at hcall
        cases hs : s.state <;> simp only [hs] at hcall hd <;>
          first
          | (cases hcall; rfl)
          | skip
        · cases hi : index commands s.bufindex <;> simp only [hi] at hcall
          · exact absurd hcall (by simp)
          · cases hcall
            rfl
        · exact absurd trivial hd
      rw [key]
      exact ⟨fun _ => by omega, fun _ => by omega⟩

theorem calls_with_invariant (h : Header) (t : Target) (P : Report → Prop)
    (hstep : ∀ (s : Report) (rd : USB_JoystickReport_Input_t) (c : List command) (o : Outcome),
      P s → Report_getNext h t s rd c = some o → P o.self)
    (inputs : List (USB_JoystickReport_Input_t × List command)) :
    ∀ (s : Report) (os : List Outcome), P s → calls_with h t inputs s = some os →
      ∀ o ∈ os, P o.self := by
  induction inputs with
  | nil =>
    intro s os _ hrun o ho
    simp only [calls_with, Option.some.injEq] at hrun
    subst hrun
    simp at ho
  | cons x rest ih =>
    intro s os hP hrun o ho
    obtain ⟨rd, c⟩ := x
    simp only [calls_with] at hrun
    cases h1 : Report_getNext h t s rd c <;> simp only [h1] at hrun
    · exact absurd hrun (by simp)
    · rename_i o1
      cases h2 : calls_with h t rest o1.self <;> simp only [h2] at hrun
      · exact absurd hrun (by simp)
      · rename_i os1
        simp only [Option.some.injEq] at hrun
        subst hrun
        rcases List.mem_cons.mp ho with e | e
        · rw [e]
          exact hstep s rd c o1 hP h1
        · exact ih o1.self os1 (hstep s rd c o1 hP h1) h2 o e

theorem process_case_frame (h : Header) (t : Target) (s1 s2 : Report)
    (rd : USB_JoystickReport_Input_t) (c : command)
    (hst : s2.state = s1.state) (hb : s2.bufindex = s1.bufindex)
    (hd : s2.duration_count = s1.duration_count) :
    (process_case h t s2 rd c).1 = (process_case h t s1 rd c).1
      ∧ (process_case h t s2 rd c).2.2 = (process_case h t s1 rd c).2.2
      ∧ (process_case h t s2 rd c).2.1.state = (process_case h t s1 rd c).2.1.state
      ∧ (process_case h t s2 rd c).2.1.bufindex = (process_case h t s1 rd c).2.1.bufindex
      ∧ (process_case h t s2 rd c).2.1.duration_count
          = (process_case h t s1 rd c).2.1.duration_count
      ∧ (s2.report_count = s1.report_count → s2.xpos = s1.xpos → s2.ypos = s1.ypos →
          s2.portsval = s1.portsval → s2.echoes = s1.echoes →
          { (process_case h t s2 rd c).2.1 with last_report := rd }
            = { (process_case h t s1 rd c).2.1 with last_report := rd }) := by
  obtain ⟨st1, l1, e1, rc1, x1, y1, b1, d1, p1⟩ := s1
  obtain ⟨st2, l2, e2, rc2, x2, y2, b2, d2, p2⟩ := s2
  simp only at hst hb hd
  subst hst hb hd
  unfold process_case
  by_cases h1 : eq_minus_one t c.duration = true
  · simp [h1, Report_reset]
    intro a1 a2 a3 a4 a5
    exact ⟨a5, a1, a2, a3, a4⟩
  · by_cases h2 : gt_uint16 t (int_wrap t (d2 + 1)) c.duration = true
    · by_cases h3 : int_wrap t (b2 + 1) > overrun_limit t
      · simp [h1, h2, h3, Report_reset]
        intro a1 a2 a3 a4 a5
        exact ⟨a5, a1, a2, a3, a4⟩
      · simp [h1, h2, h3]
        intro a1 a2 a3 a4 a5
        exact ⟨a5, a1, a2, a3, a4⟩
    · by_cases h3 : b2 > overrun_limit t
      · simp [h1, h2, h3, Report_reset]
        intro a1 a2 a3 a4 a5
        exact ⟨a5, a1, a2, a3, a4⟩
      · simp [h1, h2, h3]
        intro a1 a2 a3 a4 a5
        exact ⟨a5, a1, a2, a3, a4⟩

theorem int_wrap_small (t : Target) (x : Int) (n : Nat) (h0 : 0 ≤ x) (hx : x ≤ n)
    (hn : 2 * n < 2 ^ t.int_bits) : int_wrap t x = x := by
  unfold int_wrap
  generalize 2 ^ t.int_bits = m at hn ⊢
  have hxm : x % (m : Int) = x := Int.emod_eq_of_lt h0 (by omega)
  rw [Int.bmod_pos _ _ (by rw [hxm]; omega), hxm]

theorem process_case_bufindex (h : Header) (t : Target) (s : Report)
    (rd : USB_JoystickReport_Input_t) (c : command) :
    (process_case h t s rd c).2.1.bufindex = 0
      ∨ (eq_minus_one t c.duration = false
          ∧ ((process_case h t s rd c).2.1.bufindex = s.bufindex
            ∨ (process_case h t s rd c).2.1.bufindex = int_wrap t (s.bufindex + 1))) := by
  unfold process_case
  by_cases h1 : eq_minus_one t c.duration = true
  · left
    simp [h1, Report_reset]
  · by_cases h2 : gt_uint16 t (int_wrap t (s.duration_count + 1)) c.duration = true
    · by_cases h3 : int_wrap t (s.bufindex + 1) > overrun_limit t
      · left
        simp [h1, h2, h3, Report_reset]
      · right
        simp [h1, h2, h3]
    · by_cases h3 : s.bufindex > overrun_limit t
      · left
        simp [h1, h2, h3, Report_reset]
      · right
        simp [h1, h2, h3]

theorem getNext_in_bounds (h : Header) (t : Target) (commands : List command) (k : Nat)
    (ck : command) (hk : commands.get? k = some ck) (hsent : eq_minus_one t ck.duration = true)
    (hfit : 2 * k < 2 ^ t.int_bits) (s : Report) (rd : USB_JoystickReport_Input_t)
    (hinv : 0 ≤ s.bufindex ∧ s.bufindex ≤ k) :
    ∃ o : Outcome, Report_getNext h t s rd commands = some o
      ∧ 0 ≤ o.self.bufindex ∧ o.self.bufindex ≤ k := by
  by_cases hecho : 0 < s.echoes
  · exact ⟨_, getNext_echo h t s rd commands hecho, hinv⟩
  · unfold Report_getNext
    simp only [gt_iff_lt, hecho, if_false]
    cases hs : s.state <;> simp only []
    pick_goal 4
    · have hlen : k < commands.length := by
        rcases Nat.lt_or_ge k commands.length with hl | hl
        · exact hl
        · rw [List.get?_eq_none.mpr hl] at hk
          exact absurd hk (by simp)
      have hsome : ∃ c, index commands s.bufindex = some c := by
        unfold index
        rw [if_neg (by omega)]
        have : s.bufindex.toNat < commands.length := by omega
        exact ⟨_, List.get?_eq_get this⟩
      obtain ⟨c, hc⟩ := hsome
      simp only [hc]
      refine ⟨_, rfl, ?_⟩
      simp only [prepare_echo]
      rcases process_case_bufindex h t s (empty_report h rd) c with e | ⟨hns, e | e⟩
      · rw [e]
        omega
      · rw [e]
        exact hinv
      · rw [e]
        have hne : s.bufindex ≠ k := by
          intro hbk
          unfold index at hc
          rw [if_neg (by omega), hbk, Int.toNat_ofNat, hk] at hc
          cases hc
          rw [hsent] at hns
          exact absurd hns (by simp)
        rw [int_wrap_small t (s.bufindex + 1) k (by omega) (by omega) hfit]
        omega
    all_goals
      refine ⟨_, rfl, ?_⟩
      simp only [prepare_echo]
      first
      | exact hinv
      | omega

theorem calls_total_invariant (h : Header) (t : Target) (commands : List command)
    (P : Report → Prop)
    (hstep : ∀ (s : Report) (rd : USB_JoystickReport_Input_t), P s →
      ∃ o : Outcome, Report_getNext h t s rd commands = some o ∧ P o.self)
    (bufs : List USB_JoystickReport_Input_t) :
    ∀ s : Report, P s →
      ∃ os : List Outcome, calls h t commands bufs s = some os ∧ ∀ o ∈ os, P o.self := by
  induction bufs with
  | nil =>
    intro s _
    exact ⟨[], rfl, by simp⟩
  | cons rd rest ih =>
    intro s hP
    obtain ⟨o, ho, hPo⟩ := hstep s rd hP
    obtain ⟨os, hos, hall⟩ := ih o.self hPo
    refine ⟨o :: os, by simp only [calls, ho, hos], ?_⟩
    intro o2 ho2
    rcases List.mem_cons.mp ho2 with e | e
    · rw [e]
      exact hPo
    · exact hall o2 e

theorem HID_Task_setup_done (h : Header) (t : Target) (setup1 setup2 step : List command)
    (configured in_ready : Bool) (b : USB_JoystickReport_Input_t) (d : Device)
    (hd : d.isSetupDone = true) :
    HID_Task h t setup1 step configured in_ready b d
        = HID_Task h t setup2 step configured in_ready b d
      ∧ ∀ d1 w, HID_Task h t setup2 step configured in_ready b d = some (d1, w) →
          d1.isSetupDone = true := by
  unfold HID_Task
  simp only [hd, if_true, true_and]
  intro d1 w hr
  cases configured <;> cases in_ready <;> simp only [Bool.false_eq_true, if_true, if_false] at hr
  · cases hr
    exact hd
  · cases hr
    exact hd
  · cases hr
    exact hd
  · cases hg : Report_getNext h t d.report b step <;> simp only [hg] at hr
    · exact absurd hr (by simp)
    · cases hr
      rfl

theorem main_loop_setup_done (h : Header) (t : Target) (setup1 setup2 step : List command)
    (events : List (Bool × Bool × USB_JoystickReport_Input_t)) :
    ∀ d : Device, d.isSetupDone = true →
      main_loop h t setup1 step events d = main_loop h t setup2 step events d := by
  induction events with
  | nil =>
    intro d _
    rfl
  | cons e rest ih =>
    intro d hd
    obtain ⟨configured, in_ready, b⟩ := e
    obtain ⟨e1, e2⟩ := HID_Task_setup_done h t setup1 setup2 step configured in_ready b d hd
    simp only [main_loop, e1]
    cases hr : HID_Task h t setup2 step configured in_ready b d with
    | none => rfl
    | some r =>
      obtain ⟨d1, w⟩ := r
      simp only [ih d1 (e2 d1 w hr)]

theorem main_loop_first (h : Header) (t : Target) (setup1 setup2 step : List command)
    (d : Device) (hd : d.isSetupDone = false)
    (hs : d.report.state = State_t.SYNC_CONTROLLER) (he : d.report.echoes = 0)
    (events : List (Bool × Bool × USB_JoystickReport_Input_t)) :
    main_loop h t setup1 step events d = main_loop h t setup2 step events d := by
  induction events with
  | nil => rfl
  | cons e rest ih =>
    obtain ⟨configured, in_ready, b⟩ := e
    cases configured <;> cases in_ready
    · simp only [main_loop, HID_Task, if_true, ih]
    · simp only [main_loop, HID_Task, if_true, ih]
    · simp only [main_loop, HID_Task, Bool.true_eq_false, Bool.false_eq_true, if_false, ih]
    · simp only [main_loop, HID_Task, Bool.true_eq_false, if_false, if_true, hd,
        Bool.false_eq_true, getNext_sync h t d.report b setup1 he hs,
        getNext_sync h t d.report b setup2 he hs]
      rw [main_loop_setup_done h t setup1 setup2 step rest _ rfl]

theorem calls_length (h : Header) (t : Target) (commands : List command)
    (bufs : List USB_JoystickReport_Input_t) :
    ∀ (s : Report) (os : List Outcome), calls h t commands bufs s = some os →
      os.length = bufs.length := by
  induction bufs with
  | nil =>
    intro s os hos
    simp only [calls, Option.some.injEq] at hos
    subst hos
    rfl
  | cons rd rest ih =>
    intro s os hos
    simp only [calls] at hos
    cases h1 : Report_getNext h t s rd commands <;> simp only [h1] at hos
    · exact absurd hos (by simp)
    · rename_i o1
      cases h2 : calls h t commands rest o1.self <;> simp only [h2] at hos
      · exact absurd hos (by simp)
      · rename_i os1
        simp only [Option.some.injEq] at hos
        subst hos
        simp only [List.length_cons, ih o1.self os1 h2]

/-! ## The throttle -/

/-- C2: from a state with `echoes = 0` whose phase is not `DONE`, when a call
returns the snapshot `o.ReportData`, the next two calls, with any buffers and any
scripts, return that same snapshot with `done = false` and change nothing of the
state but `echoes`; after them `echoes` is `0` again, so the call that follows
is a fresh one. -/
theorem throttle_replays_twice (h : Header) (t : Target) (self : Report)
    (ReportData : USB_JoystickReport_Input_t) (commands : List command) (o : Outcome)
    (hfresh : self.echoes = 0) (hstate : self.state ≠ State_t.DONE)
    (hcall : Report_getNext h t self ReportData commands = some o)
    (rd1 rd2 : USB_JoystickReport_Input_t) (c1 c2 : List command) :
    ∃ o1 o2 : Outcome,
      Report_getNext h t o.self rd1 c1 = some o1
      ∧ Report_getNext h t o1.self rd2 c2 = some o2
      ∧ o1.ReportData = o.ReportData ∧ o1.retval = false
      ∧ o2.ReportData = o.ReportData ∧ o2.retval = false
      ∧ o1.self = { o.self with echoes := 1 }
      ∧ o2.self = { o.self with echoes := 0 } := by
  obtain ⟨he, hl⟩ := getNext_fresh_cache h t self ReportData commands o hfresh hstate hcall
  obtain ⟨e1, e2⟩ := echo_twice h t o.self he rd1 rd2 c1 c2
  exact ⟨_, _, e1, e2, hl, rfl, hl, rfl, rfl, rfl⟩

theorem throttle_replays_twice_witness :
    (at_phase State_t.PROCESS 0 0).echoes = 0
      ∧ (at_phase State_t.PROCESS 0 0).state ≠ State_t.DONE
      ∧ Report_getNext pokken avr8 (at_phase State_t.PROCESS 0 0) junk triggers_script
          = some ⟨true, ⟨State_t.BREATHE, ⟨48, 8, 128, 128, 128, 128⟩, 2, 0, 0, 0, 0, 0, 0⟩,
              ⟨48, 8, 128, 128, 128, 128⟩⟩
      ∧ ∃ o1 o2 : Outcome,
          Report_getNext pokken avr8
              ⟨State_t.BREATHE, ⟨48, 8, 128, 128, 128, 128⟩, 2, 0, 0, 0, 0, 0, 0⟩ junk []
            = some o1
          ∧ Report_getNext pokken avr8 o1.self junk [sentinel] = some o2
          ∧ o1.ReportData = ⟨48, 8, 128, 128, 128, 128⟩ ∧ o1.retval = false
          ∧ o2.ReportData = ⟨48, 8, 128, 128, 128, 128⟩ ∧ o2.retval = false
          ∧ o1.self = ⟨State_t.BREATHE, ⟨48, 8, 128, 128, 128, 128⟩, 1, 0, 0, 0, 0, 0, 0⟩
          ∧ o2.self = ⟨State_t.BREATHE, ⟨48, 8, 128, 128, 128, 128⟩, 0, 0, 0, 0, 0, 0, 0⟩ :=
  ⟨by decide, by decide, by decide,
    throttle_replays_twice pokken avr8 (at_phase State_t.PROCESS 0 0) junk triggers_script
      ⟨true, ⟨State_t.BREATHE, ⟨48, 8, 128, 128, 128, 128⟩, 2, 0, 0, 0, 0, 0, 0⟩,
        ⟨48, 8, 128, 128, 128, 128⟩⟩
      (by decide) (by decide) (by decide) junk junk [] [sentinel]⟩

/-! ## End of script -/

/-- C3: when a call returns `done = true`, the state it leaves has `bufindex = 0`,
`duration_count = 0`, phase `BREATHE` and `echoes = 2`; the next two calls are
echoes of the returned snapshot, and the call after them, a fresh one, returns the
neutral snapshot with `done = false` and moves to `PROCESS` with `bufindex = 0`. -/
theorem done_resets_state (h : Header) (t : Target) (self : Report)
    (ReportData : USB_JoystickReport_Input_t) (commands : List command) (o : Outcome)
    (hcall : Report_getNext h t self ReportData commands = some o)
    (hdone : o.retval = true)
    (rd1 rd2 rd3 : USB_JoystickReport_Input_t) (c1 c2 c3 : List command) :
    o.self.bufindex = 0 ∧ o.self.duration_count = 0 ∧ o.self.state = State_t.BREATHE
      ∧ o.self.echoes = 2
      ∧ ∃ o1 o2 o3 : Outcome,
          Report_getNext h t o.self rd1 c1 = some o1
          ∧ Report_getNext h t o1.self rd2 c2 = some o2
          ∧ Report_getNext h t o2.self rd3 c3 = some o3
          ∧ o1.retval = false ∧ o1.ReportData = o.ReportData
          ∧ o2.retval = false ∧ o2.ReportData = o.ReportData
          ∧ o2.self.echoes = 0
          ∧ o3.retval = false ∧ o3.ReportData = neutral h
          ∧ o3.self.state = State_t.PROCESS ∧ o3.self.bufindex = 0 := by
  obtain ⟨hb, hd, hs, he, hl⟩ := getNext_true h t self ReportData commands o hcall hdone
  obtain ⟨e1, e2⟩ := echo_twice h t o.self he rd1 rd2 c1 c2
  refine ⟨hb, hd, hs, he, _, _, _, e1, e2,
    getNext_breathe h t { o.self with echoes := 0 } rd3 c3 rfl hs, rfl, hl, rfl, hl, rfl,
    rfl, rfl, rfl, hb⟩

theorem done_resets_state_witness :
    Report_getNext pokken avr8 (at_phase State_t.PROCESS 1 0) junk triggers_script
        = some ⟨true, ⟨State_t.BREATHE, neutral pokken, 2, 0, 0, 0, 0, 0, 0⟩, neutral pokken⟩
      ∧ (true = true)
      ∧ (0 : Int) = 0 ∧ (0 : Int) = 0 ∧ State_t.BREATHE = State_t.BREATHE ∧ (2 : Int) = 2
      ∧ ∃ o1 o2 o3 : Outcome,
          Report_getNext pokken avr8 ⟨State_t.BREATHE, neutral pokken, 2, 0, 0, 0, 0, 0, 0⟩
              junk triggers_script = some o1
          ∧ Report_getNext pokken avr8 o1.self junk triggers_script = some o2
          ∧ Report_getNext pokken avr8 o2.self junk triggers_script = some o3
          ∧ o1.retval = false ∧ o1.ReportData = neutral pokken
          ∧ o2.retval = false ∧ o2.ReportData = neutral pokken
          ∧ o2.self.echoes = 0
          ∧ o3.retval = false ∧ o3.ReportData = neutral pokken
          ∧ o3.self.state = State_t.PROCESS ∧ o3.self.bufindex = 0 :=
  ⟨by decide, rfl,
    done_resets_state pokken avr8 (at_phase State_t.PROCESS 1 0) junk triggers_script
      ⟨true, ⟨State_t.BREATHE, neutral pokken, 2, 0, 0, 0, 0, 0, 0⟩, neutral pokken⟩
      (by decide) rfl junk junk junk triggers_script triggers_script triggers_script⟩

/-! ## The action table -/

/-- C5, as stated, fails for `L`: a fresh call in `PROCESS` on the entry `(L, 5)`
returns a snapshot whose `Button` is not `SWITCH_L`. -/
theorem button_mapping_L_counterexample :
    (at_phase State_t.PROCESS 0 0).echoes = 0
      ∧ (at_phase State_t.PROCESS 0 0).state = State_t.PROCESS
      ∧ index [⟨Buttons_t.L, 5⟩, sentinel] (at_phase State_t.PROCESS 0 0).bufindex
          = some ⟨Buttons_t.L, 5⟩
      ∧ eq_minus_one avr8 5 = false
      ∧ ∃ o : Outcome,
          Report_getNext pokken avr8 (at_phase State_t.PROCESS 0 0) junk
              [⟨Buttons_t.L, 5⟩, sentinel] = some o
          ∧ o.ReportData.Button = 0
          ∧ o.ReportData.Button ≠ pokken.SWITCH_L := by
  refine ⟨by decide, by decide, by decide, by decide,
    ⟨true, ⟨State_t.BREATHE, neutral pokken, 2, 0, 0, 0, 0, 0, 0⟩, neutral pokken⟩,
    by decide, by decide, by decide⟩

/-- C5, amended: on a fresh call in `PROCESS` whose entry at the cursor is not the
sentinel, the call returns and the `Button` of the returned snapshot is `SWITCH_A`
for `A`, `SWITCH_B` for `B`, `SWITCH_R` for `R` and for `THROW`,
`SWITCH_L | SWITCH_R` for `TRIGGERS`, and `0` for `L`, which has no `case` of its
own in the `switch`. -/
theorem button_mapping (h : Header) (t : Target) (self : Report)
    (ReportData : USB_JoystickReport_Input_t) (commands : List command) (c : command)
    (he : self.echoes = 0) (hs : self.state = State_t.PROCESS)
    (hi : index commands self.bufindex = some c)
    (hc : eq_minus_one t c.duration = false) :
    ∃ o : Outcome,
      Report_getNext h t self ReportData commands = some o
      ∧ (c.button = Buttons_t.A → o.ReportData.Button = h.SWITCH_A)
      ∧ (c.button = Buttons_t.B → o.ReportData.Button = h.SWITCH_B)
      ∧ (c.button = Buttons_t.L → o.ReportData.Button = 0)
      ∧ (c.button = Buttons_t.R → o.ReportData.Button = h.SWITCH_R)
      ∧ (c.button = Buttons_t.THROW → o.ReportData.Button = h.SWITCH_R)
      ∧ (c.button = Buttons_t.TRIGGERS → o.ReportData.Button = h.SWITCH_L ||| h.SWITCH_R) := by
  refine ⟨_, getNext_process h t self ReportData commands c he hs hi, ?_⟩
  simp only [prepare_echo, process_case_button h t self c hc]
  refine ⟨?_, ?_, ?_, ?_, ?_, ?_⟩ <;> intro hb <;> simp [hb, switch_button, neutral]

theorem button_mapping_witness :
    (at_phase State_t.PROCESS 0 0).echoes = 0
      ∧ (at_phase State_t.PROCESS 0 0).state = State_t.PROCESS
      ∧ index triggers_script (at_phase State_t.PROCESS 0 0).bufindex
          = some ⟨Buttons_t.TRIGGERS, 5⟩
      ∧ eq_minus_one avr8 (command.duration ⟨Buttons_t.TRIGGERS, 5⟩) = false
      ∧ ∃ o : Outcome,
          Report_getNext pokken avr8 (at_phase State_t.PROCESS 0 0) junk triggers_script = some o
          ∧ (command.button ⟨Buttons_t.TRIGGERS, 5⟩ = Buttons_t.A
              → o.ReportData.Button = pokken.SWITCH_A)
          ∧ (command.button ⟨Buttons_t.TRIGGERS, 5⟩ = Buttons_t.B
              → o.ReportData.Button = pokken.SWITCH_B)
          ∧ (command.button ⟨Buttons_t.TRIGGERS, 5⟩ = Buttons_t.L → o.ReportData.Button = 0)
          ∧ (command.button ⟨Buttons_t.TRIGGERS, 5⟩ = Buttons_t.R
              → o.ReportData.Button = pokken.SWITCH_R)
          ∧ (command.button ⟨Buttons_t.TRIGGERS, 5⟩ = Buttons_t.THROW
              → o.ReportData.Button = pokken.SWITCH_R)
          ∧ (command.button ⟨Buttons_t.TRIGGERS, 5⟩ = Buttons_t.TRIGGERS
              → o.ReportData.Button = pokken.SWITCH_L ||| pokken.SWITCH_R) :=
  ⟨by decide, by decide, by decide, by decide,
    button_mapping pokken avr8 (at_phase State_t.PROCESS 0 0) junk triggers_script
      ⟨Buttons_t.TRIGGERS, 5⟩ (by decide) (by decide) (by decide) (by decide)⟩

/-- C7: on a fresh call in `PROCESS` whose entry at the cursor is not the sentinel
and has the action `X`, `Y` or `NOTHING`, the call returns the fully neutral
snapshot: the four axes at `STICK_CENTER`, the hat at `HAT_CENTER`, `Button = 0`. -/
theorem unmapped_actions_neutral (h : Header) (t : Target) (self : Report)
    (ReportData : USB_JoystickReport_Input_t) (commands : List command) (c : command)
    (he : self.echoes = 0) (hs : self.state = State_t.PROCESS)
    (hi : index commands self.bufindex = some c)
    (hc : eq_minus_one t c.duration = false)
    (hb : c.button = Buttons_t.X ∨ c.button = Buttons_t.Y ∨ c.button = Buttons_t.NOTHING) :
    ∃ o : Outcome,
      Report_getNext h t self ReportData commands = some o
      ∧ o.ReportData = neutral h
      ∧ o.ReportData.LX = h.STICK_CENTER ∧ o.ReportData.LY = h.STICK_CENTER
      ∧ o.ReportData.RX = h.STICK_CENTER ∧ o.ReportData.RY = h.STICK_CENTER
      ∧ o.ReportData.HAT = h.HAT_CENTER ∧ o.ReportData.Button = 0 := by
  have key : (process_case h t self (neutral h) c).2.2 = neutral h := by
    rw [process_case_centred h t self c hc]
    all_goals rcases hb with e | e | e <;> simp [e, switch_button, neutral]
  refine ⟨_, getNext_process h t self ReportData commands c he hs hi, ?_⟩
  simp only [prepare_echo, key]
  simp [neutral]

theorem unmapped_actions_neutral_witness :
    (at_phase State_t.PROCESS 1 3).echoes = 0
      ∧ (at_phase State_t.PROCESS 1 3).state = State_t.PROCESS
      ∧ index [⟨Buttons_t.A, 5⟩, ⟨Buttons_t.X, 7⟩, sentinel] (at_phase State_t.PROCESS 1 3).bufindex
          = some ⟨Buttons_t.X, 7⟩
      ∧ eq_minus_one avr8 (command.duration ⟨Buttons_t.X, 7⟩) = false
      ∧ ∃ o : Outcome,
          Report_getNext pokken avr8 (at_phase State_t.PROCESS 1 3) junk
              [⟨Buttons_t.A, 5⟩, ⟨Buttons_t.X, 7⟩, sentinel] = some o
          ∧ o.ReportData = neutral pokken
          ∧ o.ReportData.LX = pokken.STICK_CENTER ∧ o.ReportData.LY = pokken.STICK_CENTER
          ∧ o.ReportData.RX = pokken.STICK_CENTER ∧ o.ReportData.RY = pokken.STICK_CENTER
          ∧ o.ReportData.HAT = pokken.HAT_CENTER ∧ o.ReportData.Button = 0 :=
  ⟨by decide, by decide, by decide, by decide,
    unmapped_actions_neutral pokken avr8 (at_phase State_t.PROCESS 1 3) junk
      [⟨Buttons_t.A, 5⟩, ⟨Buttons_t.X, 7⟩, sentinel] ⟨Buttons_t.X, 7⟩
      (by decide) (by decide) (by decide) (by decide) (Or.inl rfl)⟩

/-! ## Runs from the initial state -/

/-- C9: with a script whose entry 0 is the sentinel, seven calls from the initial
state all return.  Calls 1 to 6 return `done = false` and none of them is a fresh
call in `PROCESS` (calls 1 and 4 are fresh in `SYNC_CONTROLLER` and `BREATHE`, the
others are echoes); call 7 is the first fresh call in `PROCESS` and returns
`done = true` with the fully neutral snapshot. -/
theorem sentinel_first (h : Header) (t : Target) (s0 : Report) (c : command)
    (rest : List command) (b1 b2 b3 b4 b5 b6 b7 : USB_JoystickReport_Input_t)
    (hs : s0.state = State_t.SYNC_CONTROLLER) (hb : s0.bufindex = 0)
    (_hd : s0.duration_count = 0) (he : s0.echoes = 0)
    (hc : eq_minus_one t c.duration = true) :
    ∃ o1 o2 o3 o4 o5 o6 o7 : Outcome,
      calls h t (c :: rest) [b1, b2, b3, b4, b5, b6, b7] s0
        = some [o1, o2, o3, o4, o5, o6, o7]
      ∧ o1.retval = false ∧ o2.retval = false ∧ o3.retval = false
      ∧ o4.retval = false ∧ o5.retval = false ∧ o6.retval = false
      ∧ s0.state ≠ State_t.PROCESS ∧ 0 < o1.self.echoes ∧ 0 < o2.self.echoes
      ∧ o3.self.echoes = 0 ∧ o3.self.state = State_t.BREATHE
      ∧ 0 < o4.self.echoes ∧ 0 < o5.self.echoes
      ∧ o6.self.echoes = 0 ∧ o6.self.state = State_t.PROCESS
      ∧ o7.retval = true ∧ o7.ReportData = neutral h := by
  have i0 : index (c :: rest) 0 = some c := by simp [index]
  have c1 := getNext_sync h t s0 b1 (c :: rest) he hs
  obtain ⟨c2, c3⟩ := echo_twice h t
    { s0 with state := State_t.BREATHE, last_report := neutral h, echoes := 2 } rfl
    b2 b3 (c :: rest) (c :: rest)
  have c4 := getNext_breathe h t
    { s0 with state := State_t.BREATHE, last_report := neutral h, echoes := 0 }
    b4 (c :: rest) rfl rfl
  obtain ⟨c5, c6⟩ := echo_twice h t
    { s0 with state := State_t.PROCESS, last_report := neutral h, echoes := 2 } rfl
    b5 b6 (c :: rest) (c :: rest)
  have c7 := getNext_process h t
    { s0 with state := State_t.PROCESS, last_report := neutral h, echoes := 0 }
    b7 (c :: rest) c rfl rfl (by simpa [hb] using i0)
  rw [process_case_sentinel h t _ c hc] at c7
  simp only [] at c2 c3 c4 c5 c6 c7
  simp only [calls, c1, c2, c3, c4, c5, c6, c7]
  refine ⟨_, _, _, _, _, _, _, rfl, ?_⟩
  simp [hs, prepare_echo]

theorem sentinel_first_witness :
    initial.state = State_t.SYNC_CONTROLLER ∧ initial.bufindex = 0
      ∧ initial.duration_count = 0 ∧ initial.echoes = 0
      ∧ eq_minus_one avr8 sentinel.duration = true
      ∧ ∃ o1 o2 o3 o4 o5 o6 o7 : Outcome,
          calls pokken avr8 (sentinel :: triggers_script)
              [junk, junk, junk, junk, junk, junk, junk] initial
            = some [o1, o2, o3, o4, o5, o6, o7]
          ∧ o1.retval = false ∧ o2.retval = false ∧ o3.retval = false
          ∧ o4.retval = false ∧ o5.retval = false ∧ o6.retval = false
          ∧ initial.state ≠ State_t.PROCESS ∧ 0 < o1.self.echoes ∧ 0 < o2.self.echoes
          ∧ o3.self.echoes = 0 ∧ o3.self.state = State_t.BREATHE
          ∧ 0 < o4.self.echoes ∧ 0 < o5.self.echoes
          ∧ o6.self.echoes = 0 ∧ o6.self.state = State_t.PROCESS
          ∧ o7.retval = true ∧ o7.ReportData = neutral pokken :=
  ⟨by decide, by decide, by decide, by decide, by decide,
    sentinel_first pokken avr8 initial sentinel triggers_script
      junk junk junk junk junk junk junk (by decide) (by decide) (by decide) (by decide)
      (by decide)⟩

/-- C10, as stated, fails at call 2 and at call 3: with the script
`[(TRIGGERS, 5), sentinel]`, call 2 is an echo and leaves the phase at `BREATHE`,
and call 3 is an echo returning the neutral snapshot, whose `Button` is `0` and not
`SWITCH_L | SWITCH_R`. -/
theorem scenario_counterexample :
    ∃ o1 o2 o3 : Outcome,
      calls pokken avr8 triggers_script [junk, junk, junk] initial = some [o1, o2, o3]
      ∧ o2.self.state = State_t.BREATHE ∧ o2.self.state ≠ State_t.PROCESS
      ∧ o3.ReportData = neutral pokken
      ∧ o3.ReportData.Button ≠ pokken.SWITCH_L ||| pokken.SWITCH_R :=
  ⟨⟨false, ⟨State_t.BREATHE, neutral pokken, 2, 0, 0, 0, 0, 0, 0⟩, neutral pokken⟩,
    ⟨false, ⟨State_t.BREATHE, neutral pokken, 1, 0, 0, 0, 0, 0, 0⟩, neutral pokken⟩,
    ⟨false, ⟨State_t.BREATHE, neutral pokken, 0, 0, 0, 0, 0, 0, 0⟩, neutral pokken⟩,
    by decide, by decide, by decide, by decide, by decide⟩

/-- C10, amended: from the initial state with the script `[(TRIGGERS, 5), sentinel]`
nine calls all return.  Call 1 returns the neutral snapshot and moves
`SYNC_CONTROLLER` to `BREATHE`; calls 2 and 3 are echoes of it; call 4 returns the
neutral snapshot and moves `BREATHE` to `PROCESS` with `bufindex = 0`; calls 5 and
6 are echoes of it; call 7 is fresh and returns a snapshot with
`Button = SWITCH_L | SWITCH_R` and centred axes; calls 8 and 9 return the snapshot
of call 7 as echoes. -/
theorem scenario_triggers (h : Header) (t : Target) (s0 : Report)
    (b1 b2 b3 b4 b5 b6 b7 b8 b9 : USB_JoystickReport_Input_t)
    (hs : s0.state = State_t.SYNC_CONTROLLER) (hb : s0.bufindex = 0)
    (_hd : s0.duration_count = 0) (he : s0.echoes = 0) :
    ∃ o1 o2 o3 o4 o5 o6 o7 o8 o9 : Outcome,
      calls h t triggers_script [b1, b2, b3, b4, b5, b6, b7, b8, b9] s0
        = some [o1, o2, o3, o4, o5, o6, o7, o8, o9]
      ∧ o1.retval = false ∧ o1.ReportData = neutral h ∧ o1.self.state = State_t.BREATHE
      ∧ o2.retval = false ∧ o2.ReportData = neutral h ∧ o2.self.state = State_t.BREATHE
      ∧ o3.retval = false ∧ o3.ReportData = neutral h ∧ o3.self.state = State_t.BREATHE
      ∧ o3.self.echoes = 0
      ∧ o4.retval = false ∧ o4.ReportData = neutral h ∧ o4.self.state = State_t.PROCESS
      ∧ o4.self.bufindex = 0
      ∧ o5.retval = false ∧ o5.ReportData = neutral h ∧ o5.self.state = State_t.PROCESS
      ∧ o6.retval = false ∧ o6.ReportData = neutral h ∧ o6.self.state = State_t.PROCESS
      ∧ o6.self.echoes = 0
      ∧ o7.ReportData = { neutral h with Button := h.SWITCH_L ||| h.SWITCH_R }
      ∧ o8.retval = false ∧ o8.ReportData = o7.ReportData
      ∧ o9.retval = false ∧ o9.ReportData = o7.ReportData := by
  have hc : eq_minus_one t (command.duration ⟨Buttons_t.TRIGGERS, 5⟩) = false := by
    simp [eq_minus_one]
  have c1 := getNext_sync h t s0 b1 triggers_script he hs
  obtain ⟨c2, c3⟩ := echo_twice h t
    { s0 with state := State_t.BREATHE, last_report := neutral h, echoes := 2 } rfl
    b2 b3 triggers_script triggers_script
  have c4 := getNext_breathe h t
    { s0 with state := State_t.BREATHE, last_report := neutral h, echoes := 0 }
    b4 triggers_script rfl rfl
  obtain ⟨c5, c6⟩ := echo_twice h t
    { s0 with state := State_t.PROCESS, last_report := neutral h, echoes := 2 } rfl
    b5 b6 triggers_script triggers_script
  have c7 := getNext_process h t
    { s0 with state := State_t.PROCESS, last_report := neutral h, echoes := 0 }
    b7 triggers_script ⟨Buttons_t.TRIGGERS, 5⟩ rfl rfl
    (by simp [hb, index, triggers_script])
  have key := process_case_centred h t
    { s0 with state := State_t.PROCESS, last_report := neutral h, echoes := 0 }
    ⟨Buttons_t.TRIGGERS, 5⟩ hc (by simp [switch_button, neutral])
  obtain ⟨c8, c9⟩ := echo_twice h t
    (prepare_echo
      (process_case h t
        { s0 with state := State_t.PROCESS, last_report := neutral h, echoes := 0 }
        (neutral h) ⟨Buttons_t.TRIGGERS, 5⟩).1
      (process_case h t
        { s0 with state := State_t.PROCESS, last_report := neutral h, echoes := 0 }
        (neutral h) ⟨Buttons_t.TRIGGERS, 5⟩).2.1
      (process_case h t
        { s0 with state := State_t.PROCESS, last_report := neutral h, echoes := 0 }
        (neutral h) ⟨Buttons_t.TRIGGERS, 5⟩).2.2).self rfl
    b8 b9 triggers_script triggers_script
  simp only [] at c2 c3 c4 c5 c6 c7 c8 c9
  simp only [calls, c1, c2, c3, c4, c5, c6, c7, c8, c9]
  refine ⟨_, _, _, _, _, _, _, _, _, rfl, ?_⟩
  simp only [prepare_echo, key]
  simp [hb, switch_button, neutral]

theorem scenario_triggers_witness :
    initial.state = State_t.SYNC_CONTROLLER ∧ initial.bufindex = 0
      ∧ initial.duration_count = 0 ∧ initial.echoes = 0
      ∧ ∃ o1 o2 o3 o4 o5 o6 o7 o8 o9 : Outcome,
          calls pokken avr8 triggers_script
              [junk, junk, junk, junk, junk, junk, junk, junk, junk] initial
            = some [o1, o2, o3, o4, o5, o6, o7, o8, o9]
          ∧ o1.retval = false ∧ o1.ReportData = neutral pokken
          ∧ o1.self.state = State_t.BREATHE
          ∧ o2.retval = false ∧ o2.ReportData = neutral pokken
          ∧ o2.self.state = State_t.BREATHE
          ∧ o3.retval = false ∧ o3.ReportData = neutral pokken
          ∧ o3.self.state = State_t.BREATHE
          ∧ o3.self.echoes = 0
          ∧ o4.retval = false ∧ o4.ReportData = neutral pokken
          ∧ o4.self.state = State_t.PROCESS
          ∧ o4.self.bufindex = 0
          ∧ o5.retval = false ∧ o5.ReportData = neutral pokken
          ∧ o5.self.state = State_t.PROCESS
          ∧ o6.retval = false ∧ o6.ReportData = neutral pokken
          ∧ o6.self.state = State_t.PROCESS
          ∧ o6.self.echoes = 0
          ∧ o7.ReportData = { neutral pokken with Button := pokken.SWITCH_L ||| pokken.SWITCH_R }
          ∧ o8.retval = false ∧ o8.ReportData = o7.ReportData
          ∧ o9.retval = false ∧ o9.ReportData = o7.ReportData :=
  ⟨by decide, by decide, by decide, by decide,
    scenario_triggers pokken avr8 initial junk junk junk junk junk junk junk junk junk
      (by decide) (by decide) (by decide) (by decide)⟩

/-! ## The test against the script length -/

/-- C8 (evaluation): on the AVR the limit of line 372 is `2 / 3 - 1 = -1`, and a
fresh call in `PROCESS` at cursor 0 on the entry `(A, 5)`, which is not the
sentinel, takes the branch of line 372: it returns `done = true` and leaves the
phase `BREATHE`.  With 8-byte pointers and an 8-byte `command` the limit is `0` and
the branch is taken as soon as the cursor moves to 1. -/
theorem overrun_branch_taken :
    overrun_limit avr8 = -1
      ∧ (at_phase State_t.PROCESS 0 0).echoes = 0
      ∧ (at_phase State_t.PROCESS 0 0).state = State_t.PROCESS
      ∧ 0 ≤ (at_phase State_t.PROCESS 0 0).bufindex
      ∧ index two_step_script (at_phase State_t.PROCESS 0 0).bufindex = some ⟨Buttons_t.A, 5⟩
      ∧ eq_minus_one avr8 5 = false
      ∧ Report_getNext pokken avr8 (at_phase State_t.PROCESS 0 0) junk two_step_script
          = some ⟨true, ⟨State_t.BREATHE, ⟨4, 8, 128, 128, 128, 128⟩, 2, 0, 0, 0, 0, 0, 0⟩,
              ⟨4, 8, 128, 128, 128, 128⟩⟩
      ∧ overrun_limit lp64 = 0
      ∧ eq_minus_one lp64 5 = false
      ∧ Report_getNext pokken lp64 (at_phase State_t.PROCESS 0 5) junk two_step_script
          = some ⟨true, ⟨State_t.BREATHE, ⟨4, 8, 128, 128, 128, 128⟩, 2, 0, 0, 0, 0, 0, 0⟩,
              ⟨4, 8, 128, 128, 128, 128⟩⟩ := by
  refine ⟨by decide, by decide, by decide, by decide, by decide, by decide, by decide,
    by decide, by decide, by decide⟩

/-- C1 (evaluation): with the script `[(A, 5), (B, 3), sentinel]` on the AVR, the
first fresh call in `PROCESS`, call 7, already returns `done = true`, after one
snapshot of `A` instead of six; the cursor is back at 0 and the run repeats from
there (call 13 is the same as call 7): `B` is never reached. -/
theorem hold_count_run :
    (calls pokken avr8 two_step_script (List.replicate 13 junk) initial).map (List.map observe)
      = some
          [(false, State_t.BREATHE, 0, 0, 0), (false, State_t.BREATHE, 0, 0, 0),
           (false, State_t.BREATHE, 0, 0, 0), (false, State_t.PROCESS, 0, 0, 0),
           (false, State_t.PROCESS, 0, 0, 0), (false, State_t.PROCESS, 0, 0, 0),
           (true, State_t.BREATHE, 0, 0, 4), (false, State_t.BREATHE, 0, 0, 4),
           (false, State_t.BREATHE, 0, 0, 4), (false, State_t.PROCESS, 0, 0, 0),
           (false, State_t.PROCESS, 0, 0, 0), (false, State_t.PROCESS, 0, 0, 0),
           (true, State_t.BREATHE, 0, 0, 4)] := by
  decide

/-- C4 (evaluation): on the AVR a fresh call in `PROCESS` on the entry `(A, 5)`
returns `done = true` through the branch of line 372, and the snapshot it returns
and stores in `last_report` has `Button = SWITCH_A`, not `0`. -/
theorem done_snapshot_keeps_button :
    Report_getNext pokken avr8 (at_phase State_t.PROCESS 0 0) junk two_step_script
        = some ⟨true, ⟨State_t.BREATHE, ⟨4, 8, 128, 128, 128, 128⟩, 2, 0, 0, 0, 0, 0, 0⟩,
            ⟨4, 8, 128, 128, 128, 128⟩⟩
      ∧ pokken.SWITCH_A = 4
      ∧ (⟨4, 8, 128, 128, 128, 128⟩ : USB_JoystickReport_Input_t) ≠ neutral pokken := by
  refine ⟨by decide, by decide, by decide⟩

/-- C6 (evaluation): on the AVR a fresh call in `PROCESS` on the entry `(UP, 5)`
returns a snapshot whose `LY` is `STICK_CENTER`, not `STICK_MIN`: the branch of
line 372 is taken and `Report_reset` centres the axes again. -/
theorem stick_extreme_lost :
    index [⟨Buttons_t.UP, 5⟩, sentinel] (at_phase State_t.PROCESS 0 0).bufindex
        = some ⟨Buttons_t.UP, 5⟩
      ∧ eq_minus_one avr8 5 = false
      ∧ ∃ o : Outcome,
          Report_getNext pokken avr8 (at_phase State_t.PROCESS 0 0) junk
              [⟨Buttons_t.UP, 5⟩, sentinel] = some o
          ∧ o.ReportData.LY = pokken.STICK_CENTER
          ∧ o.ReportData.LY ≠ pokken.STICK_MIN :=
  ⟨by decide, by decide,
    ⟨true, ⟨State_t.BREATHE, neutral pokken, 2, 0, 0, 0, 0, 0, 0⟩, neutral pokken⟩,
    by decide, by decide, by decide⟩

/-! ## Echo calls, initialisation and the idle phase -/

/-- C11: from a state with `echoes > 0`, with any buffer and any script, the call
returns `last_report` with `done = false`, decrements `echoes` by exactly 1 and
leaves the phase, `bufindex`, `duration_count` and `last_report` as they were; the
outcome is the same for any other buffer and script. -/
theorem echo_call_frame (h : Header) (t : Target) (self : Report)
    (ReportData : USB_JoystickReport_Input_t) (commands : List command)
    (hecho : 0 < self.echoes) :
    ∃ o : Outcome,
      Report_getNext h t self ReportData commands = some o
      ∧ o.ReportData = self.last_report ∧ o.retval = false
      ∧ o.self.echoes = self.echoes - 1
      ∧ o.self.state = self.state ∧ o.self.bufindex = self.bufindex
      ∧ o.self.duration_count = self.duration_count
      ∧ o.self.last_report = self.last_report
      ∧ o.self = { self with echoes := self.echoes - 1 }
      ∧ ∀ (rd2 : USB_JoystickReport_Input_t) (c2 : List command),
          Report_getNext h t self rd2 c2 = some o :=
  ⟨_, getNext_echo h t self ReportData commands hecho, rfl, rfl, rfl, rfl, rfl, rfl, rfl, rfl,
    fun rd2 c2 => getNext_echo h t self rd2 c2 hecho⟩

theorem echo_call_frame_witness :
    0 < mid_echo.echoes
      ∧ ∃ o : Outcome,
          Report_getNext pokken avr8 mid_echo junk [] = some o
          ∧ o.ReportData = mid_echo.last_report ∧ o.retval = false
          ∧ o.self.echoes = mid_echo.echoes - 1
          ∧ o.self.state = mid_echo.state ∧ o.self.bufindex = mid_echo.bufindex
          ∧ o.self.duration_count = mid_echo.duration_count
          ∧ o.self.last_report = mid_echo.last_report
          ∧ o.self = { mid_echo with echoes := mid_echo.echoes - 1 }
          ∧ ∀ (rd2 : USB_JoystickReport_Input_t) (c2 : List command),
              Report_getNext pokken avr8 mid_echo rd2 c2 = some o :=
  ⟨by decide, echo_call_frame pokken avr8 mid_echo junk [] (by decide)⟩

/-- C12, as stated, fails: `Report_init` applied to a `Report` with `echoes = 2` and
a stored `A` snapshot leaves both as they are, and the first call after it is an
echo that returns that stored snapshot. -/
theorem init_keeps_echoes :
    Report_init mid_echo
        = ⟨State_t.SYNC_CONTROLLER, ⟨4, 8, 128, 128, 128, 128⟩, 2, 0, 0, 0, 0, 0, 0⟩
      ∧ (Report_init mid_echo).echoes ≠ 0
      ∧ Report_getNext pokken avr8 (Report_init mid_echo) junk triggers_script
          = some ⟨false,
              ⟨State_t.SYNC_CONTROLLER, ⟨4, 8, 128, 128, 128, 128⟩, 1, 0, 0, 0, 0, 0, 0⟩,
              ⟨4, 8, 128, 128, 128, 128⟩⟩ := by
  refine ⟨by decide, by decide, by decide⟩

/-- C12, amended: for every prior content of the `Report` whose `echoes` is `0`, as
in the zeroed static object that `main` passes, after `Report_init` the phase is
`SYNC_CONTROLLER` and `bufindex`, `duration_count` and `echoes` are `0`, and the
first call of `Report_getNext` is a fresh one: it returns the neutral snapshot with
`done = false` and moves to `BREATHE`. -/
theorem init_state (h : Header) (t : Target) (self : Report) (he : self.echoes = 0)
    (ReportData : USB_JoystickReport_Input_t) (commands : List command) :
    (Report_init self).state = State_t.SYNC_CONTROLLER
      ∧ (Report_init self).bufindex = 0 ∧ (Report_init self).duration_count = 0
      ∧ (Report_init self).echoes = 0
      ∧ (Report_init self).report_count = 0 ∧ (Report_init self).xpos = 0
      ∧ (Report_init self).ypos = 0 ∧ (Report_init self).portsval = 0
      ∧ Report_getNext h t (Report_init self) ReportData commands
          = some ⟨false,
              { Report_init self with
                state := State_t.BREATHE
                last_report := neutral h
                echoes := 2 },
              neutral h⟩ :=
  ⟨rfl, rfl, rfl, he, rfl, rfl, rfl, rfl,
    getNext_sync h t (Report_init self) ReportData commands he rfl⟩

theorem init_state_witness :
    static_report.echoes = 0
      ∧ (Report_init static_report).state = State_t.SYNC_CONTROLLER
      ∧ (Report_init static_report).bufindex = 0
      ∧ (Report_init static_report).duration_count = 0
      ∧ (Report_init static_report).echoes = 0
      ∧ (Report_init static_report).report_count = 0 ∧ (Report_init static_report).xpos = 0
      ∧ (Report_init static_report).ypos = 0 ∧ (Report_init static_report).portsval = 0
      ∧ Report_getNext pokken avr8 (Report_init static_report) junk setup
          = some ⟨false,
              { Report_init static_report with
                state := State_t.BREATHE
                last_report := neutral pokken
                echoes := 2 },
              neutral pokken⟩ :=
  ⟨by decide, init_state pokken avr8 static_report (by decide) junk setup⟩

/-- C14, as stated, fails: in `DONE` with `echoes = 0` and an `A` snapshot stored
in `last_report`, the call returns the neutral snapshot, not the stored one. -/
theorem idle_counterexample :
    idle_report.state = State_t.DONE ∧ idle_report.echoes = 0
      ∧ ∃ o : Outcome,
          Report_getNext pokken avr8 idle_report junk triggers_script = some o
          ∧ o.ReportData = neutral pokken
          ∧ o.ReportData ≠ idle_report.last_report :=
  ⟨by decide, by decide, ⟨false, idle_report, neutral pokken⟩, by decide, by decide, by decide⟩

/-- C14, amended: in `DONE` with `echoes = 0`, with any buffer and any script, the
call returns the neutral snapshot with `done = false` and leaves the whole state as
it was; and from any state in `DONE`, whatever `echoes` is, every call returns and
leaves the phase `DONE`, so no sequence of calls leaves it. -/
theorem idle_phase (h : Header) (t : Target) (self : Report) (hs : self.state = State_t.DONE) :
    (self.echoes = 0 →
      ∀ (ReportData : USB_JoystickReport_Input_t) (commands : List command),
        Report_getNext h t self ReportData commands = some ⟨false, self, neutral h⟩)
    ∧ (∀ (ReportData : USB_JoystickReport_Input_t) (commands : List command),
        ∃ o : Outcome, Report_getNext h t self ReportData commands = some o
          ∧ o.self.state = State_t.DONE)
    ∧ ∀ (inputs : List (USB_JoystickReport_Input_t × List command)),
        ∃ os : List Outcome, calls_with h t inputs self = some os
          ∧ ∀ o ∈ os, o.self.state = State_t.DONE := by
  have step : ∀ (s : Report), s.state = State_t.DONE →
      ∀ (ReportData : USB_JoystickReport_Input_t) (commands : List command),
        ∃ o : Outcome, Report_getNext h t s ReportData commands = some o
          ∧ o.self.state = State_t.DONE := by
    intro s hs ReportData commands
    by_cases he : 0 < s.echoes
    · exact ⟨_, getNext_echo h t s ReportData commands he, hs⟩
    · exact ⟨⟨false, s, empty_report h ReportData⟩, by simp [Report_getNext, he, hs], hs⟩
  refine ⟨?_, step self hs, ?_⟩
  · intro he ReportData commands
    simp [Report_getNext, he, hs, empty_report, neutral]
  · intro inputs
    induction inputs generalizing self with
    | nil => exact ⟨[], rfl, by simp⟩
    | cons x rest ih =>
      obtain ⟨o, ho, hso⟩ := step self hs x.1 x.2
      obtain ⟨os, hos, hall⟩ := ih o.self hso
      refine ⟨o :: os, ?_, ?_⟩
      · obtain ⟨rd, c⟩ := x
        simp only [calls_with, ho, hos]
      · intro o2 ho2
        rcases List.mem_cons.mp ho2 with e | e
        · rw [e]; exact hso
        · exact hall o2 e

theorem idle_phase_witness :
    idle_report.state = State_t.DONE
      ∧ (idle_report.echoes = 0 →
          ∀ (ReportData : USB_JoystickReport_Input_t) (commands : List command),
            Report_getNext pokken avr8 idle_report ReportData commands
              = some ⟨false, idle_report, neutral pokken⟩)
      ∧ (∀ (ReportData : USB_JoystickReport_Input_t) (commands : List command),
          ∃ o : Outcome, Report_getNext pokken avr8 idle_report ReportData commands = some o
            ∧ o.self.state = State_t.DONE)
      ∧ ∀ (inputs : List (USB_JoystickReport_Input_t × List command)),
          ∃ os : List Outcome, calls_with pokken avr8 inputs idle_report = some os
            ∧ ∀ o ∈ os, o.self.state = State_t.DONE :=
  ⟨by decide, idle_phase pokken avr8 idle_report (by decide)⟩

/-! ## Invariants of runs with arbitrary scripts -/

/-- C15: from a state in `SYNC_CONTROLLER` with `echoes = 0`, after any sequence of
calls that return, with any buffers and scripts, the phase after every call is
`BREATHE` or `PROCESS`: never `CLEANUP`, `DONE` or `SYNC_POSITION`, and never
`SYNC_CONTROLLER` again.  `BREATHE` and `PROCESS` are both reached: after one call
and after four calls. -/
theorem dead_phases_unreachable (h : Header) (t : Target) (s0 : Report)
    (hs : s0.state = State_t.SYNC_CONTROLLER) (he : s0.echoes = 0)
    (inputs : List (USB_JoystickReport_Input_t × List command)) (os : List Outcome)
    (hrun : calls_with h t inputs s0 = some os) :
    (∀ o ∈ os, (o.self.state = State_t.BREATHE ∨ o.self.state = State_t.PROCESS)
        ∧ o.self.state ≠ State_t.CLEANUP ∧ o.self.state ≠ State_t.DONE
        ∧ o.self.state ≠ State_t.SYNC_POSITION ∧ o.self.state ≠ State_t.SYNC_CONTROLLER)
      ∧ ∃ o1 o2 o3 o4 : Outcome,
          calls_with h t [(junk, []), (junk, []), (junk, []), (junk, [])] s0
            = some [o1, o2, o3, o4]
          ∧ o1.self.state = State_t.BREATHE ∧ o4.self.state = State_t.PROCESS := by
  constructor
  · have live : ∀ o ∈ os, o.self.state = State_t.BREATHE ∨ o.self.state = State_t.PROCESS := by
      cases inputs with
      | nil =>
        simp only [calls_with, Option.some.injEq] at hrun
        subst hrun
        simp
      | cons x rest =>
        obtain ⟨rd, c⟩ := x
        simp only [calls_with, getNext_sync h t s0 rd c he hs] at hrun
        cases h2 : calls_with h t rest
            { s0 with state := State_t.BREATHE, last_report := neutral h, echoes := 2 }
          <;> simp only [h2] at hrun
        · exact absurd hrun (by simp)
        · rename_i os1
          simp only [Option.some.injEq] at hrun
          subst hrun
          intro o ho
          rcases List.mem_cons.mp ho with e | e
          · rw [e]
            left
            rfl
          · exact calls_with_invariant h t
              (fun s => s.state = State_t.BREATHE ∨ s.state = State_t.PROCESS)
              (fun s rd c o hl hc => getNext_live h t s rd c o hl hc) rest _ os1
              (Or.inl rfl) h2 o e
    intro o ho
    rcases live o ho with e | e <;> simp [e]
  · obtain ⟨c2, c3⟩ := echo_twice h t
      { s0 with state := State_t.BREATHE, last_report := neutral h, echoes := 2 } rfl
      junk junk [] []
    have c4 := getNext_breathe h t
      { s0 with state := State_t.BREATHE, last_report := neutral h, echoes := 0 }
      junk [] rfl rfl
    simp only [] at c2 c3 c4
    simp only [calls_with, getNext_sync h t s0 junk [] he hs, c2, c3, c4]
    exact ⟨_, _, _, _, rfl, rfl, rfl⟩

theorem dead_phases_unreachable_witness :
    initial.state = State_t.SYNC_CONTROLLER ∧ initial.echoes = 0
      ∧ calls_with pokken avr8 [(junk, setup), (junk, two_step_script)] initial
          = some [⟨false, ⟨State_t.BREATHE, neutral pokken, 2, 0, 0, 0, 0, 0, 0⟩, neutral pokken⟩,
              ⟨false, ⟨State_t.BREATHE, neutral pokken, 1, 0, 0, 0, 0, 0, 0⟩, neutral pokken⟩]
      ∧ (∀ o ∈ [(⟨false, ⟨State_t.BREATHE, neutral pokken, 2, 0, 0, 0, 0, 0, 0⟩,
                  neutral pokken⟩ : Outcome),
              ⟨false, ⟨State_t.BREATHE, neutral pokken, 1, 0, 0, 0, 0, 0, 0⟩, neutral pokken⟩],
          (o.self.state = State_t.BREATHE ∨ o.self.state = State_t.PROCESS)
            ∧ o.self.state ≠ State_t.CLEANUP ∧ o.self.state ≠ State_t.DONE
            ∧ o.self.state ≠ State_t.SYNC_POSITION ∧ o.self.state ≠ State_t.SYNC_CONTROLLER)
      ∧ ∃ o1 o2 o3 o4 : Outcome,
          calls_with pokken avr8 [(junk, []), (junk, []), (junk, []), (junk, [])] initial
            = some [o1, o2, o3, o4]
          ∧ o1.self.state = State_t.BREATHE ∧ o4.self.state = State_t.PROCESS :=
  ⟨by decide, by decide, by decide,
    dead_phases_unreachable pokken avr8 initial (by decide) (by decide)
      [(junk, setup), (junk, two_step_script)] _ (by decide)⟩

/-- C16: a call that returns from a state with `echoes >= 0` leaves `echoes >= 0`;
and from a state with `echoes = 0`, after any sequence of calls that return, with
any buffers and scripts, `0 <= echoes <= 2` after every call. -/
theorem echoes_invariant (h : Header) (t : Target) (s0 : Report) (he : s0.echoes = 0)
    (inputs : List (USB_JoystickReport_Input_t × List command)) (os : List Outcome)
    (hrun : calls_with h t inputs s0 = some os) :
    (∀ (s : Report) (rd : USB_JoystickReport_Input_t) (c : List command) (o : Outcome),
        0 ≤ s.echoes → Report_getNext h t s rd c = some o → 0 ≤ o.self.echoes)
      ∧ (0 ≤ s0.echoes ∧ s0.echoes ≤ 2)
      ∧ ∀ o ∈ os, 0 ≤ o.self.echoes ∧ o.self.echoes ≤ 2 := by
  refine ⟨fun s rd c o h0 hc => (getNext_echoes_range h t s rd c o hc).1 h0, by omega, ?_⟩
  exact calls_with_invariant h t (fun s => 0 ≤ s.echoes ∧ s.echoes ≤ 2)
    (fun s rd c o hr hc => (getNext_echoes_range h t s rd c o hc).2 hr) inputs s0 os
    (by simp only; omega) hrun

theorem echoes_invariant_witness :
    initial.echoes = 0
      ∧ calls_with pokken avr8 [(junk, setup), (junk, two_step_script)] initial
          = some [⟨false, ⟨State_t.BREATHE, neutral pokken, 2, 0, 0, 0, 0, 0, 0⟩, neutral pokken⟩,
              ⟨false, ⟨State_t.BREATHE, neutral pokken, 1, 0, 0, 0, 0, 0, 0⟩, neutral pokken⟩]
      ∧ (∀ (s : Report) (rd : USB_JoystickReport_Input_t) (c : List command) (o : Outcome),
          0 ≤ s.echoes → Report_getNext pokken avr8 s rd c = some o → 0 ≤ o.self.echoes)
      ∧ (0 ≤ initial.echoes ∧ initial.echoes ≤ 2)
      ∧ ∀ o ∈ [(⟨false, ⟨State_t.BREATHE, neutral pokken, 2, 0, 0, 0, 0, 0, 0⟩,
                  neutral pokken⟩ : Outcome),
              ⟨false, ⟨State_t.BREATHE, neutral pokken, 1, 0, 0, 0, 0, 0, 0⟩, neutral pokken⟩],
          0 ≤ o.self.echoes ∧ o.self.echoes ≤ 2 :=
  ⟨by decide, by decide,
    echoes_invariant pokken avr8 initial (by decide)
      [(junk, setup), (junk, two_step_script)] _ (by decide)⟩

/-! ## What a fresh call depends on -/

/-- C13, as stated, fails in `DONE`: two states in `DONE` with `echoes = 0` that
differ in `last_report` only are both returned unchanged, so the resulting states
differ. -/
theorem no_leak_counterexample :
    idle_report.echoes = 0
      ∧ Report_getNext pokken avr8 idle_report junk triggers_script
          = some ⟨false, idle_report, neutral pokken⟩
      ∧ Report_getNext pokken avr8 { idle_report with last_report := junk } junk triggers_script
          = some ⟨false, { idle_report with last_report := junk }, neutral pokken⟩
      ∧ Report_getNext pokken avr8 idle_report junk triggers_script
          ≠ Report_getNext pokken avr8 { idle_report with last_report := junk } junk
              triggers_script := by
  refine ⟨by decide, by decide, by decide, by decide⟩

/-- C13, amended: for a fresh call (`echoes = 0`) in a phase other than `DONE`, two
states that agree on the phase, `bufindex` and `duration_count` give, with the same
script and any two buffers, the same flag, the same snapshot and the same phase,
`bufindex`, `duration_count`, `echoes` and `last_report` afterwards; when the two
states differ in `last_report` only, the two calls have the same outcome. -/
theorem fresh_call_no_leak (h : Header) (t : Target) (s1 s2 : Report)
    (rd1 rd2 : USB_JoystickReport_Input_t) (commands : List command)
    (he1 : s1.echoes = 0) (he2 : s2.echoes = 0)
    (hst : s2.state = s1.state) (hb : s2.bufindex = s1.bufindex)
    (hd : s2.duration_count = s1.duration_count) (hnd : s1.state ≠ State_t.DONE) :
    (Report_getNext h t s2 rd2 commands).map visible
        = (Report_getNext h t s1 rd1 commands).map visible
      ∧ (s2.report_count = s1.report_count → s2.xpos = s1.xpos → s2.ypos = s1.ypos →
          s2.portsval = s1.portsval →
          Report_getNext h t s2 rd2 commands = Report_getNext h t s1 rd1 commands) := by
  unfold Report_getNext
  simp only [he1, he2, gt_iff_lt, lt_self_iff_false, if_false, hst, hb]
  cases hs : s1.state <;> simp only [hs] at hnd ⊢
  case PROCESS =>
    cases hi : index commands s1.bufindex <;> simp only [hi]
    · simp
    · rename_i c
      obtain ⟨f1, f2, f3, f4, f5, f6⟩ :=
        process_case_frame h t s1 s2 (empty_report h rd1) c (by rw [hst, hs]) hb hd
      have e : empty_report h rd2 = empty_report h rd1 := rfl
      rw [e]
      constructor
      · simp [visible, prepare_echo, f1, f2, f3, f4, f5]
      · intro a1 a2 a3 a4
        have f := f6 a1 a2 a3 a4 (by rw [he1, he2])
        simp only [prepare_echo, f1, f2]
        have g := congrArg (fun r : Report =>
          ({ r with
              last_report := (process_case h t s1 (empty_report h rd1) c).2.2
              echoes := ECHOES } : Report)) f
        simp only [] at g
        rw [g]
  case DONE => exact absurd rfl hnd
  all_goals
    constructor
    · simp [visible, prepare_echo, empty_report, hb, hd]
    · intro a1 a2 a3 a4
      simp [prepare_echo, empty_report, hb, hd, a1, a2, a3, a4]

theorem fresh_call_no_leak_witness :
    (at_phase State_t.PROCESS 0 0).echoes = 0
      ∧ (at_phase State_t.PROCESS 0 0).state ≠ State_t.DONE
      ∧ (Report_getNext pokken avr8
            ⟨State_t.PROCESS, junk, 0, 0, 0, 0, 0, 0, 0⟩ junk triggers_script).map visible
          = (Report_getNext pokken avr8 (at_phase State_t.PROCESS 0 0)
              (neutral pokken) triggers_script).map visible
      ∧ ((0 : Int) = 0 → (0 : Int) = 0 → (0 : Int) = 0 → (0 : Int) = 0 →
          Report_getNext pokken avr8 ⟨State_t.PROCESS, junk, 0, 0, 0, 0, 0, 0, 0⟩ junk
              triggers_script
            = Report_getNext pokken avr8 (at_phase State_t.PROCESS 0 0) (neutral pokken)
                triggers_script) :=
  ⟨by decide, by decide,
    fresh_call_no_leak pokken avr8 (at_phase State_t.PROCESS 0 0)
      ⟨State_t.PROCESS, junk, 0, 0, 0, 0, 0, 0, 0⟩ (neutral pokken) junk triggers_script
      (by decide) (by decide) (by decide) (by decide) (by decide) (by decide)⟩

/-! ## Reads of the script -/

/-- C17: for a script whose entries `0 .. k-1` are not sentinels and whose entry
`k` is the sentinel, `k` being a value of `int`, every call of a run from the
initial state with that script returns, so no read `commands[bufindex]` falls
outside the script, and after every call `0 <= bufindex <= k`, with `k` below the
length of the script. -/
theorem script_reads_in_bounds (h : Header) (t : Target) (commands : List command)
    (k : Nat) (ck : command) (hk : commands.get? k = some ck)
    (hsent : eq_minus_one t ck.duration = true)
    (_hnon : ∀ i : Nat, i < k → ∀ c : command, commands.get? i = some c →
      eq_minus_one t c.duration = false)
    (hfit : 2 * k < 2 ^ t.int_bits)
    (s0 : Report) (_hs : s0.state = State_t.SYNC_CONTROLLER) (hb : s0.bufindex = 0)
    (_hd : s0.duration_count = 0) (_he : s0.echoes = 0)
    (bufs : List USB_JoystickReport_Input_t) :
    k < commands.length
      ∧ ∃ os : List Outcome, calls h t commands bufs s0 = some os
          ∧ os.length = bufs.length
          ∧ ∀ o ∈ os, 0 ≤ o.self.bufindex ∧ o.self.bufindex ≤ k := by
  have hlen : k < commands.length := by
    rcases Nat.lt_or_ge k commands.length with hl | hl
    · exact hl
    · rw [List.get?_eq_none.mpr hl] at hk
      exact absurd hk (by simp)
  refine ⟨hlen, ?_⟩
  obtain ⟨os, hos, hall⟩ := calls_total_invariant h t commands
    (fun s => 0 ≤ s.bufindex ∧ s.bufindex ≤ k)
    (fun s rd hinv => getNext_in_bounds h t commands k ck hk hsent hfit s rd hinv)
    bufs s0 (by simp only [hb]; omega)
  exact ⟨os, hos, calls_length h t commands bufs s0 os hos, hall⟩

theorem script_reads_in_bounds_witness :
    two_step_script.get? 2 = some sentinel
      ∧ eq_minus_one avr8 sentinel.duration = true
      ∧ (∀ i : Nat, i < 2 → ∀ c : command, two_step_script.get? i = some c →
          eq_minus_one avr8 c.duration = false)
      ∧ 2 * 2 < 2 ^ avr8.int_bits
      ∧ initial.state = State_t.SYNC_CONTROLLER ∧ initial.bufindex = 0
      ∧ initial.duration_count = 0 ∧ initial.echoes = 0
      ∧ 2 < two_step_script.length
      ∧ ∃ os : List Outcome,
          calls pokken avr8 two_step_script (List.replicate 13 junk) initial = some os
          ∧ os.length = (List.replicate 13 junk).length
          ∧ ∀ o ∈ os, 0 ≤ o.self.bufindex ∧ o.self.bufindex ≤ (2 : Nat) :=
  have hnon : ∀ i : Nat, i < 2 → ∀ c : command, two_step_script.get? i = some c →
      eq_minus_one avr8 c.duration = false := by
    intro i hi c hc
    interval_cases i
    · simp only [two_step_script, List.get?_cons_zero, Option.some.injEq] at hc
      subst hc
      decide
    · simp only [two_step_script, List.get?_cons_succ, List.get?_cons_zero,
        Option.some.injEq] at hc
      subst hc
      decide
  ⟨by decide, by decide, hnon, by decide, by decide, by decide, by decide, by decide,
    script_reads_in_bounds pokken avr8 two_step_script 2 sentinel (by decide) (by decide)
      hnon (by decide) initial (by decide) (by decide) (by decide) (by decide)
      (List.replicate 13 junk)⟩

/-! ## The script of the first call -/

/-- C18: from a state in `SYNC_CONTROLLER` with `echoes = 0` and `bufindex = 0`, the
call returns, for any two scripts and buffers, the neutral snapshot with
`done = false` and the same state, in `BREATHE` with `echoes = 2` and
`bufindex = 0`; and under `HID_Task`, which passes `setup` on its first call of
`Report_getNext` and `step` on all later ones, every run of the main loop writes
the same reports and ends in the same state whatever `setup` contains. -/
theorem first_call_ignores_script (h : Header) (t : Target) (s0 : Report)
    (hs : s0.state = State_t.SYNC_CONTROLLER) (he : s0.echoes = 0) (hb : s0.bufindex = 0)
    (c1 c2 : List command) (rd1 rd2 : USB_JoystickReport_Input_t) :
    (∃ o : Outcome,
        Report_getNext h t s0 rd1 c1 = some o ∧ Report_getNext h t s0 rd2 c2 = some o
        ∧ o.ReportData = neutral h ∧ o.retval = false
        ∧ o.self.state = State_t.BREATHE ∧ o.self.echoes = 2 ∧ o.self.bufindex = 0)
      ∧ ∀ (setup1 setup2 step : List command)
          (events : List (Bool × Bool × USB_JoystickReport_Input_t)),
          main_loop h t setup1 step events ⟨s0, false⟩
            = main_loop h t setup2 step events ⟨s0, false⟩ :=
  ⟨⟨_, getNext_sync h t s0 rd1 c1 he hs, getNext_sync h t s0 rd2 c2 he hs, rfl, rfl, rfl, rfl,
      hb⟩,
    fun setup1 setup2 step events =>
      main_loop_first h t setup1 setup2 step ⟨s0, false⟩ rfl hs he events⟩

theorem first_call_ignores_script_witness :
    initial.state = State_t.SYNC_CONTROLLER ∧ initial.echoes = 0 ∧ initial.bufindex = 0
      ∧ (∃ o : Outcome,
          Report_getNext pokken avr8 initial junk setup = some o
          ∧ Report_getNext pokken avr8 initial (neutral pokken) two_step_script = some o
          ∧ o.ReportData = neutral pokken ∧ o.retval = false
          ∧ o.self.state = State_t.BREATHE ∧ o.self.echoes = 2 ∧ o.self.bufindex = 0)
      ∧ ∀ (setup1 setup2 step : List command)
          (events : List (Bool × Bool × USB_JoystickReport_Input_t)),
          main_loop pokken avr8 setup1 step events ⟨initial, false⟩
            = main_loop pokken avr8 setup2 step events ⟨initial, false⟩ :=
  ⟨by decide, by decide, by decide,
    first_call_ignores_script pokken avr8 initial (by decide) (by decide) (by decide)
      setup two_step_script junk (neutral pokken)⟩

end Joystick
